import Mathlib

/-! Shallow embedding of the chief-keeper governance agent
(src/chief_keeper/chief_keeper.py and src/chief_keeper/database.py).

Addresses are modelled as natural numbers, with 0 playing the role of
the zero address.  All chain reads (block number, block lookup, current
hat, spell eta/done, code presence, transaction receipts) are supplied
by a `ChainView` record of total functions, mirroring the typed
read/submit contracts the keeper consumes.  The TinyDB document store
(doc 1 = last_block_checked, doc 2 = hat record) becomes the `DBState`
record.  Each monitor returns its updated state, the list of submitted
transactions, and an optional raised Python exception.
-/

namespace ChiefKeeper

/-- Cached hat record (doc_id 2 of the TinyDB store): proposal address
(0 models the zero address), eta as a unix timestamp with 0 meaning not
scheduled, and the done flag. -/
structure Hat where
  address : Nat
  eta : Nat
  done : Bool
  deriving DecidableEq, Repr

/-- State of the local database: doc_id 1 holds last_block_checked and
doc_id 2 holds the hat record. -/
structure DBState where
  last_block_checked : Nat
  hat : Hat
  deriving DecidableEq, Repr

/-- Transaction receipt as returned by pymaker transact: only the
successful flag is consulted by the keeper. -/
structure Receipt where
  successful : Bool
  deriving DecidableEq, Repr

/-- Block data: the keeper only reads the timestamp. -/
structure Block where
  timestamp : Nat
  deriving DecidableEq, Repr

/-- Read-only view of the chain plus the outcome of transaction
submission.  spellEta models get_eta_in_unix of a DSSSpell at an
address, spellEtaAfterSchedule the value of the same query re-run after
the schedule transaction was submitted, castReceipt the receipt (or
None) returned by cast().transact. -/
structure ChainView where
  blockNumber : Nat
  getBlock : Nat → Option Block
  hatAddress : Nat
  spellEta : Nat → Nat
  spellDone : Nat → Bool
  spellEtaAfterSchedule : Nat → Nat
  hasCode : Nat → Bool
  castReceipt : Nat → Option Receipt

/-- The zero address sentinel of chief_keeper.spell. -/
def zero_address : Nat := 0

/-- Presence and readability of the persisted backing file
database/db_network.json, together with the state it stores when it is
readable. -/
structure BackingFile where
  fileExists : Bool
  fileReadable : Bool
  stored : DBState
  deriving DecidableEq, Repr

/-- Transactions the keeper can submit. -/
inductive Tx where
  | schedule (address : Nat)
  | cast (address : Nat)
  deriving DecidableEq, Repr

/-- Python exceptions the embedded code can raise. -/
inductive PyErr where
  | attributeError
  | permissionError
  deriving DecidableEq, Repr

/-- Result of running one monitor: updated database state, submitted
transactions in order, and an optional uncaught exception. -/
structure MResult where
  state : DBState
  txs : List Tx
  err : Option PyErr
  deriving DecidableEq, Repr

/-- SimpleDatabase.update_db_hat: if the cached hat address differs from
the on-chain hat, replace the cached record with a fresh one built from
chain state (on-chain eta and done of the new spell); in all cases store
the current block number as last_block_checked. -/
def update_db_hat (w : ChainView) (s : DBState) (current_block_number : Nat) : DBState :=
  let current_hat := w.hatAddress
  let s1 :=
    if s.hat.address ≠ current_hat then
      { s with hat := { address := current_hat
                        eta := w.spellEta current_hat
                        done := w.spellDone current_hat } }
    else s
  { s1 with last_block_checked := current_block_number }

/-- SimpleDatabase.update_db_hat_eat: partial update of the cached hat
record, overwriting only the eta field. -/
def update_db_hat_eat (s : DBState) (eta : Nat) : DBState :=
  { s with hat := { s.hat with eta := eta } }

/-- SimpleDatabase.update_db_hat_done: partial update of the cached hat
record, overwriting only the done field. -/
def update_db_hat_done (s : DBState) (done : Bool) : DBState :=
  { s with hat := { s.hat with done := done } }

/-- The state seeded by SimpleDatabase.create when it (re)creates the
database: current block number, and for a non-zero hat the on-chain eta
and done of its spell; for the zero-address hat the record
(eta 0, done true), since there is no active spell. -/
def seeded_state (w : ChainView) : DBState :=
  let hat := w.hatAddress
  if hat ≠ zero_address then
    { last_block_checked := w.blockNumber
      hat := { address := hat, eta := w.spellEta hat, done := w.spellDone hat } }
  else
    { last_block_checked := w.blockNumber
      hat := { address := hat, eta := 0, done := true } }

/-- SimpleDatabase.create: when the backing file exists and is readable,
open it as is.  Otherwise the else branch first builds the status string
and then calls TinyDB on the path: for a missing file TinyDB creates it
and the branch seeds the database from current chain state, but for an
existing file that os.access reported unreadable, TinyDB's JSONStorage
opens it in r+ mode and raises PermissionError before any record is
inserted, so create neither reseeds nor returns on that input. -/
def create (w : ChainView) (f : BackingFile) : Except PyErr (String × DBState) :=
  if f.fileExists && f.fileReadable then
    Except.ok ("Simple database exists and is readable", f.stored)
  else if f.fileExists then
    Except.error PyErr.permissionError
  else
    Except.ok ("Either file is missing or is not readable, creating simple database",
      seeded_state w)

/-- ChiefKeeper.check_hat: update the cached hat from chain, then guard
on zero address / done, guard on code presence, and when eta is 0
re-query the chain eta; adopt a nonzero chain eta without submitting,
otherwise submit a schedule transaction and persist the re-queried eta
if it became nonzero. -/
def check_hat (w : ChainView) (s : DBState) : MResult :=
  let block_number := w.blockNumber
  let s1 := update_db_hat w s block_number
  let hat := s1.hat
  if hat.address = zero_address ∨ hat.done = true then
    { state := s1, txs := [], err := none }
  else if w.hasCode hat.address = false then
    { state := s1, txs := [], err := none }
  else if hat.done = false ∧ hat.eta = 0 then
    let spell_eta := w.spellEta hat.address
    if spell_eta > 0 then
      { state := update_db_hat_eat s1 spell_eta, txs := [], err := none }
    else
      let spell_eta2 := w.spellEtaAfterSchedule hat.address
      if spell_eta2 > 0 then
        { state := update_db_hat_eat s1 spell_eta2
          txs := [Tx.schedule hat.address], err := none }
      else
        { state := s1, txs := [Tx.schedule hat.address], err := none }
  else
    { state := s1, txs := [], err := none }

/-- ChiefKeeper.check_eta: guard on zero address / done / eta 0, fetch
the current block (warn and return when it is None), compare the block
timestamp against eta, and when due build the spell only if the address
has code (assigning None otherwise) — the following unconditional
attribute access on the spell raises AttributeError when it is None.
When the cast receipt is None or successful, set done to true. -/
def check_eta (w : ChainView) (s : DBState) : MResult :=
  let hat := s.hat
  if hat.address = zero_address ∨ hat.done = true ∨ hat.eta = 0 then
    { state := s, txs := [], err := none }
  else
    match w.getBlock w.blockNumber with
    | none => { state := s, txs := [], err := none }
    | some block =>
      if block.timestamp < hat.eta then
        { state := s, txs := [], err := none }
      else if w.hasCode hat.address = false then
        { state := s, txs := [], err := some PyErr.attributeError }
      else
        match w.castReceipt hat.address with
        | none =>
          { state := update_db_hat_done s true
            txs := [Tx.cast hat.address], err := none }
        | some receipt =>
          if receipt.successful then
            { state := update_db_hat_done s true
              txs := [Tx.cast hat.address], err := none }
          else
            { state := s, txs := [Tx.cast hat.address], err := none }

/-- Keeper-level mutable fields touched by process_block. -/
structure KeeperState where
  errors : Nat
  max_errors : Nat
  db : DBState
  deriving DecidableEq, Repr

/-- Outcome of one on_block callback: either lifecycle.terminate was
called, or the monitors ran, yielding the new keeper state, the
submitted transactions, and an optional exception that escaped the
callback. -/
inductive BlockOutcome where
  | terminated
  | processed (k : KeeperState) (txs : List Tx) (err : Option PyErr)
  deriving DecidableEq, Repr

/-- ChiefKeeper.process_block: terminate when the error counter has
reached max_errors, otherwise run check_hat then check_eta.  There is no
try/except around the monitors and nothing increments the errors field,
so an exception escapes with the counter unchanged. -/
def process_block (w : ChainView) (k : KeeperState) : BlockOutcome :=
  if k.errors ≥ k.max_errors then BlockOutcome.terminated
  else
    let r1 := check_hat w k.db
    match r1.err with
    | some e => BlockOutcome.processed { k with db := r1.state } r1.txs (some e)
    | none =>
      let r2 := check_eta w r1.state
      BlockOutcome.processed { k with db := r2.state } (r1.txs ++ r2.txs) r2.err

/-- Per-record invariant claimed by the spec: an unscheduled record is
never marked done. -/
def hat_inv (h : Hat) : Prop := h.eta = 0 → h.done = false

/-- Chain scenario for the scheduling race: the cached hat 1 is
unchanged on chain, unscheduled in the cache, but the chain already
reports eta 42 for its spell. -/
def w1c : ChainView :=
  { blockNumber := 5
    getBlock := fun _ => some { timestamp := 0 }
    hatAddress := 1
    spellEta := fun _ => 42
    spellDone := fun _ => false
    spellEtaAfterSchedule := fun _ => 42
    hasCode := fun _ => true
    castReceipt := fun _ => none }

/-- Cached state for the scheduling race scenario. -/
def s1c : DBState :=
  { last_block_checked := 4, hat := { address := 1, eta := 0, done := false } }

/-- Chain scenario for startup: hat 3 with no scheduled spell. -/
def w2c : ChainView :=
  { blockNumber := 100
    getBlock := fun _ => none
    hatAddress := 3
    spellEta := fun _ => 0
    spellDone := fun _ => false
    spellEtaAfterSchedule := fun _ => 0
    hasCode := fun _ => true
    castReceipt := fun _ => none }

/-- Backing file that exists but is not readable, storing some earlier
state. -/
def f2c : BackingFile :=
  { fileExists := true
    fileReadable := false
    stored := { last_block_checked := 1, hat := { address := 9, eta := 7, done := true } } }

/-- Chain scenario where the cast transaction returns a definitively
failed receipt for the due spell at hat 4. -/
def w3c : ChainView :=
  { blockNumber := 8
    getBlock := fun _ => some { timestamp := 50 }
    hatAddress := 4
    spellEta := fun _ => 50
    spellDone := fun _ => false
    spellEtaAfterSchedule := fun _ => 50
    hasCode := fun _ => true
    castReceipt := fun _ => some { successful := false } }

/-- Cached state with a due, not-done spell at hat 4. -/
def s3c : DBState :=
  { last_block_checked := 7, hat := { address := 4, eta := 50, done := false } }

/-- Chain scenario where the due hat address 7 has no deployed code. -/
def w4c : ChainView :=
  { blockNumber := 9
    getBlock := fun _ => some { timestamp := 5 }
    hatAddress := 7
    spellEta := fun _ => 5
    spellDone := fun _ => false
    spellEtaAfterSchedule := fun _ => 5
    hasCode := fun _ => false
    castReceipt := fun _ => none }

/-- Cached state with a due, not-done hat at the codeless address 7. -/
def s4c : DBState :=
  { last_block_checked := 8, hat := { address := 7, eta := 5, done := false } }

/-- Chain scenario where the hat changed to address 2 whose spell is
already scheduled on chain with eta 5. -/
def w5c : ChainView :=
  { blockNumber := 10
    getBlock := fun _ => none
    hatAddress := 2
    spellEta := fun _ => 5
    spellDone := fun _ => false
    spellEtaAfterSchedule := fun _ => 5
    hasCode := fun _ => true
    castReceipt := fun _ => none }

/-- Cached state still holding the previous hat 1. -/
def s5c : DBState :=
  { last_block_checked := 9, hat := { address := 1, eta := 7, done := false } }

/-- Chain scenario for bootstrap with the zero address as hat. -/
def w6c : ChainView :=
  { blockNumber := 3
    getBlock := fun _ => none
    hatAddress := 0
    spellEta := fun _ => 0
    spellDone := fun _ => false
    spellEtaAfterSchedule := fun _ => 0
    hasCode := fun _ => false
    castReceipt := fun _ => none }

/-- Missing backing file for the bootstrap scenario. -/
def f6c : BackingFile :=
  { fileExists := false
    fileReadable := false
    stored := { last_block_checked := 0, hat := { address := 0, eta := 0, done := true } } }

/-- Chain scenario for the invariant-preservation witness: unchanged
hat 2, unscheduled on chain, spells never report done without an eta. -/
def w6w : ChainView :=
  { blockNumber := 11
    getBlock := fun _ => some { timestamp := 1 }
    hatAddress := 2
    spellEta := fun _ => 0
    spellDone := fun _ => false
    spellEtaAfterSchedule := fun _ => 9
    hasCode := fun _ => true
    castReceipt := fun _ => none }

/-- Cached state for the invariant-preservation witness. -/
def s6w : DBState :=
  { last_block_checked := 10, hat := { address := 2, eta := 0, done := false } }

/-- Chain scenario with the hat 3 unchanged and already done. -/
def w7c : ChainView :=
  { blockNumber := 12
    getBlock := fun _ => some { timestamp := 99 }
    hatAddress := 3
    spellEta := fun _ => 5
    spellDone := fun _ => true
    spellEtaAfterSchedule := fun _ => 5
    hasCode := fun _ => true
    castReceipt := fun _ => some { successful := true } }

/-- Cached state whose hat 3 is already done. -/
def s7c : DBState :=
  { last_block_checked := 11, hat := { address := 3, eta := 5, done := true } }

/-- Chain scenario whose current block timestamp 10 equals the cached
eta of the code-bearing hat 4. -/
def w8c : ChainView :=
  { blockNumber := 20
    getBlock := fun _ => some { timestamp := 10 }
    hatAddress := 4
    spellEta := fun _ => 10
    spellDone := fun _ => false
    spellEtaAfterSchedule := fun _ => 10
    hasCode := fun _ => true
    castReceipt := fun _ => none }

/-- Cached state with eta 10 for hat 4, not done. -/
def s8c : DBState :=
  { last_block_checked := 19, hat := { address := 4, eta := 10, done := false } }

/-- Chain scenario making check_eta raise: due hat 7 without code. -/
def w9c : ChainView :=
  { blockNumber := 12
    getBlock := fun _ => some { timestamp := 5 }
    hatAddress := 7
    spellEta := fun _ => 5
    spellDone := fun _ => false
    spellEtaAfterSchedule := fun _ => 5
    hasCode := fun _ => false
    castReceipt := fun _ => none }

/-- Keeper state with a fresh error counter and the default budget. -/
def k9c : KeeperState :=
  { errors := 0
    max_errors := 100
    db := { last_block_checked := 11, hat := { address := 7, eta := 5, done := false } } }

/-- Chain scenario where fetching the current block returns None. -/
def w10c : ChainView :=
  { blockNumber := 13
    getBlock := fun _ => none
    hatAddress := 6
    spellEta := fun _ => 9
    spellDone := fun _ => false
    spellEtaAfterSchedule := fun _ => 9
    hasCode := fun _ => true
    castReceipt := fun _ => none }

/-- Cached state passing the eta-monitor guards, for the None-block
scenario. -/
def s10c : DBState :=
  { last_block_checked := 12, hat := { address := 6, eta := 9, done := false } }

lemma hat_after_update (w : ChainView) (s : DBState) (n : Nat) :
    (update_db_hat w s n).hat =
      (if s.hat.address = w.hatAddress then s.hat
       else { address := w.hatAddress
              eta := w.spellEta w.hatAddress
              done := w.spellDone w.hatAddress }) := by
  by_cases h : s.hat.address = w.hatAddress <;> simp [update_db_hat, h]

lemma checkpoint_after_update (w : ChainView) (s : DBState) (n : Nat) :
    (update_db_hat w s n).last_block_checked = n := by
  by_cases h : s.hat.address = w.hatAddress <;> simp [update_db_hat, h]

lemma check_hat_state_cases (w : ChainView) (s : DBState) :
    (check_hat w s).state = update_db_hat w s w.blockNumber
    ∨ ∃ e, 0 < e ∧
        (check_hat w s).state = update_db_hat_eat (update_db_hat w s w.blockNumber) e := by
  simp only [check_hat]
  split_ifs with h1 h2 h3 h4 h5
  · exact Or.inl rfl
  · exact Or.inl rfl
  · exact Or.inr ⟨_, h4, rfl⟩
  · exact Or.inr ⟨_, h5, rfl⟩
  · exact Or.inl rfl
  · exact Or.inl rfl

lemma check_eta_state_cases (w : ChainView) (s : DBState) :
    (check_eta w s).state = s
    ∨ ((check_eta w s).state = update_db_hat_done s true ∧ s.hat.eta ≠ 0) := by
  by_cases h1 : s.hat.address = zero_address ∨ s.hat.done = true ∨ s.hat.eta = 0
  · simp [check_eta, h1]
  · push_neg at h1
    obtain ⟨haddr, hdone, heta⟩ := h1
    have hd : s.hat.done = false := by
      simpa using hdone
    cases hb : w.getBlock w.blockNumber with
    | none => simp [check_eta, haddr, hd, heta, hb]
    | some b =>
      by_cases h2 : b.timestamp < s.hat.eta
      · simp [check_eta, haddr, hd, heta, hb, h2]
      · by_cases h3 : w.hasCode s.hat.address = false
        · simp [check_eta, haddr, hd, heta, hb, h2, h3]
        · cases hr : w.castReceipt s.hat.address with
          | none => simp [check_eta, haddr, hd, heta, hb, h2, h3, hr]
          | some r =>
            by_cases hs : r.successful <;>
              simp [check_eta, haddr, hd, heta, hb, h2, h3, hr, hs]

lemma hat_inv_after_update (w : ChainView) (s : DBState) (n : Nat)
    (hinv : hat_inv s.hat)
    (hchain : ∀ a, w.spellEta a = 0 → w.spellDone a = false) :
    hat_inv (update_db_hat w s n).hat := by
  rw [hat_after_update]
  split_ifs with h
  · exact hinv
  · exact fun he => hchain _ he

/-- Claim C1: for a cached leader record that, after the per-block hat
update, has eta 0 and done false and passes the zero-address and code
guards, a nonzero eta reported by the chain on re-query is stored in the
cache via the partial eta update and check_hat returns without
submitting any transaction, in particular no schedule transaction. -/
theorem c1_adopt_chain_eta (w : ChainView) (s : DBState)
    (haddr : (update_db_hat w s w.blockNumber).hat.address ≠ zero_address)
    (hdone : (update_db_hat w s w.blockNumber).hat.done = false)
    (heta : (update_db_hat w s w.blockNumber).hat.eta = 0)
    (hcode : w.hasCode (update_db_hat w s w.blockNumber).hat.address = true)
    (hpos : 0 < w.spellEta (update_db_hat w s w.blockNumber).hat.address) :
    check_hat w s =
      { state := update_db_hat_eat (update_db_hat w s w.blockNumber)
                   (w.spellEta (update_db_hat w s w.blockNumber).hat.address)
        txs := []
        err := none } := by
  simp [check_hat, haddr, hdone, heta, hcode, hpos]

/-- Witness for C1 on the concrete scheduling-race scenario: the chain
eta 42 is adopted and no transaction is submitted. -/
theorem c1_adopt_chain_eta_witness :
    check_hat w1c s1c =
      { state := { last_block_checked := 5
                   hat := { address := 1, eta := 42, done := false } }
        txs := []
        err := none } :=
  (c1_adopt_chain_eta w1c s1c (by decide) (by decide) (by decide) (by decide)
    (by decide)).trans (by decide)

/-- Claim C2: for every startup in which the persisted backing store
file exists but is not readable, create raises PermissionError at the
TinyDB open, before any record is stored — the agent does not proceed
and in particular never reseeds the store from current chain state. -/
theorem c2_unreadable_is_fatal (w : ChainView) (f : BackingFile)
    (hex : f.fileExists = true) (hrd : f.fileReadable = false) :
    create w f = Except.error PyErr.permissionError := by
  simp [create, hex, hrd]

/-- Witness for C2 on the concrete unreadable-file scenario. -/
theorem c2_unreadable_is_fatal_witness :
    create w2c f2c = Except.error PyErr.permissionError :=
  c2_unreadable_is_fatal w2c f2c rfl rfl

/-- Claim C3: when the eta monitor reaches the cast submission (guards
passed, block present, timestamp at or past eta, code at the address),
the cached done flag ends up true exactly when the receipt is absent or
successful, and a definitively failed receipt leaves the state
unchanged, so done stays false. -/
theorem c3_done_iff_receipt (w : ChainView) (s : DBState) (b : Block)
    (haddr : s.hat.address ≠ zero_address)
    (hdone : s.hat.done = false)
    (heta : s.hat.eta ≠ 0)
    (hblock : w.getBlock w.blockNumber = some b)
    (hts : s.hat.eta ≤ b.timestamp)
    (hcode : w.hasCode s.hat.address = true) :
    ((check_eta w s).state.hat.done = true ↔
      (w.castReceipt s.hat.address = none ∨
        ∃ r, w.castReceipt s.hat.address = some r ∧ r.successful = true))
    ∧ (∀ r, w.castReceipt s.hat.address = some r → r.successful = false →
        (check_eta w s).state = s) := by
  have hnl : ¬ (b.timestamp < s.hat.eta) := Nat.not_lt.mpr hts
  constructor
  · cases hr : w.castReceipt s.hat.address with
    | none =>
      simp [check_eta, haddr, hdone, heta, hblock, hnl, hcode, hr,
        update_db_hat_done]
    | some r =>
      by_cases hs : r.successful <;>
        simp [check_eta, haddr, hdone, heta, hblock, hnl, hcode, hr, hs,
          update_db_hat_done]
  · intro r hr hs
    simp [check_eta, haddr, hdone, heta, hblock, hnl, hcode, hr, hs]

/-- Witness for C3 on the concrete failed-cast scenario: the failed
receipt leaves the cached state unchanged. -/
theorem c3_done_iff_receipt_witness :
    (check_eta w3c s3c).state = s3c :=
  (c3_done_iff_receipt w3c s3c { timestamp := 50 } (by decide) (by decide)
    (by decide) (by decide) (by decide) (by decide)).2
    { successful := false } (by decide) (by decide)

/-- Claim C4, evaluated at the failing input: with a due, not-done
cached leader whose address has no deployed code, check_eta submits no
cast transaction but raises AttributeError (the spell local is None and
is dereferenced unconditionally) instead of returning cleanly. -/
theorem c4_no_code_raises :
    check_eta w4c s4c = { state := s4c, txs := [], err := some PyErr.attributeError } := by
  decide

/-- Counterexample to claim C5: when the on-chain hat changes to an
address whose spell is already scheduled with eta 5, the cached eta
after the update is 5, not 0, even though the address changed during
this block. -/
theorem c5_counterexample :
    s5c.hat.address ≠ w5c.hatAddress ∧
    (update_db_hat w5c s5c 10).hat.address = w5c.hatAddress ∧
    (update_db_hat w5c s5c 10).hat.eta = 5 := by
  refine ⟨by decide, by decide, by decide⟩

/-- Amended C5: after a block is processed the cached leader address
equals the on-chain leader address; when the address changed during the
block the cached record is replaced by a fresh one carrying the new
leader's on-chain eta (0 only if unscheduled) and on-chain done flag,
and when it did not change the record's fields are preserved; the
checkpoint is always advanced.  The monitors never change the cached
address afterwards. -/
theorem c5_hat_reconciliation (w : ChainView) (s : DBState) (n : Nat) :
    (update_db_hat w s n).hat.address = w.hatAddress
    ∧ (update_db_hat w s n).hat =
        (if s.hat.address = w.hatAddress then s.hat
         else { address := w.hatAddress
                eta := w.spellEta w.hatAddress
                done := w.spellDone w.hatAddress })
    ∧ (update_db_hat w s n).last_block_checked = n
    ∧ (check_hat w s).state.hat.address = w.hatAddress
    ∧ (check_eta w s).state.hat.address = s.hat.address := by
  refine ⟨?_, hat_after_update w s n, checkpoint_after_update w s n, ?_, ?_⟩
  · rw [hat_after_update]
    split_ifs with h
    · exact h
    · rfl
  · have haddr : (update_db_hat w s w.blockNumber).hat.address = w.hatAddress := by
      rw [hat_after_update]
      split_ifs with h
      · exact h
      · rfl
    rcases check_hat_state_cases w s with h | ⟨e, _, h⟩
    · rw [h, haddr]
    · rw [h, update_db_hat_eat]
      exact haddr
  · rcases check_eta_state_cases w s with h | ⟨h, _⟩
    · rw [h]
    · rw [h, update_db_hat_done]

/-- Counterexample to claim C6: bootstrapping on a missing backing file
with the zero address as on-chain hat stores the record with eta 0 and
done true, violating the claimed invariant that eta 0 implies done
false. -/
theorem c6_counterexample :
    f6c.fileExists = false ∧
    create w6c f6c =
      Except.ok
        ("Either file is missing or is not readable, creating simple database",
         { last_block_checked := 3
           hat := { address := 0, eta := 0, done := true } }) := by
  refine ⟨rfl, ?_⟩
  rfl

/-- Amended C6: provided the chain never reports a done spell without a
nonzero eta, every record stored by the monitors preserves the
invariant that eta 0 implies done false, and the bootstrap seeding
satisfies it whenever the on-chain hat is not the zero address; the
zero-address bootstrap deliberately stores the sentinel record with
eta 0 and done true. -/
theorem c6_invariant_preserved (w : ChainView) (f : BackingFile) (s : DBState)
    (hchain : ∀ a, w.spellEta a = 0 → w.spellDone a = false) :
    (¬ (f.fileExists = true ∧ f.fileReadable = true) → w.hatAddress ≠ zero_address →
      ∀ msg st, create w f = Except.ok (msg, st) → hat_inv st.hat)
    ∧ (hat_inv s.hat → hat_inv (check_hat w s).state.hat)
    ∧ (hat_inv s.hat → hat_inv (check_eta w s).state.hat) := by
  refine ⟨?_, ?_, ?_⟩
  · intro hf hhat msg st hok
    cases he : f.fileExists with
    | true =>
      have hr : f.fileReadable = false := by
        cases hr2 : f.fileReadable with
        | true => exact absurd ⟨he, hr2⟩ hf
        | false => rfl
      simp [create, he, hr] at hok
    | false =>
      simp [create, he] at hok
      rw [← hok.2]
      rw [seeded_state, if_pos hhat]
      exact fun he2 => hchain _ he2
  · intro hinv
    rcases check_hat_state_cases w s with h | ⟨e, he, h⟩
    · rw [h]
      exact hat_inv_after_update w s w.blockNumber hinv hchain
    · rw [h, update_db_hat_eat]
      intro h0
      exact absurd h0 (Nat.pos_iff_ne_zero.mp he)
  · intro hinv
    rcases check_eta_state_cases w s with h | ⟨h, hne⟩
    · rw [h]
      exact hinv
    · rw [h, update_db_hat_done]
      intro h0
      exact absurd h0 hne

/-- Witness for the amended C6 on the concrete scenario where the hat
monitor adopts eta 9 after scheduling: the stored record still satisfies
the invariant. -/
theorem c6_invariant_preserved_witness :
    hat_inv (check_hat w6w s6w).state.hat :=
  (c6_invariant_preserved w6w f6c s6w (fun _ _ => rfl)).2.1 (fun _ => rfl)

/-- Claim C7: when the cached record consulted by the guards (the one
left by the per-block hat update) has the zero address or a true done
flag, neither check_hat nor the subsequent check_eta submits any
transaction. -/
theorem c7_guards_no_tx (w : ChainView) (s : DBState)
    (h : (update_db_hat w s w.blockNumber).hat.address = zero_address ∨
         (update_db_hat w s w.blockNumber).hat.done = true) :
    (check_hat w s).txs = [] ∧ (check_eta w (check_hat w s).state).txs = [] := by
  have h1 : check_hat w s =
      { state := update_db_hat w s w.blockNumber, txs := [], err := none } := by
    simp only [check_hat]
    rw [if_pos h]
  rw [h1]
  refine ⟨rfl, ?_⟩
  rcases h with h | h <;> simp [check_eta, h]

/-- Witness for C7 on the concrete done-hat scenario. -/
theorem c7_guards_no_tx_witness :
    (check_hat w7c s7c).txs = [] ∧
    (check_eta w7c (check_hat w7c s7c).state).txs = [] :=
  c7_guards_no_tx w7c s7c (by decide)

/-- Claim C8: for a cached leader with eta T, done false and a
code-bearing nonzero address, the eta monitor compares the fetched
block's timestamp against eta: a block with timestamp T - 1 yields no
transaction, while a block with timestamp T yields exactly one cast
transaction. -/
theorem c8_due_time_uses_block_timestamp (w : ChainView) (s : DBState)
    (T : Nat) (b : Block)
    (haddr : s.hat.address ≠ zero_address)
    (hdone : s.hat.done = false)
    (heta : s.hat.eta = T)
    (hT : 0 < T)
    (hcode : w.hasCode s.hat.address = true)
    (hblock : w.getBlock w.blockNumber = some b) :
    (b.timestamp = T - 1 → (check_eta w s).txs = [])
    ∧ (b.timestamp = T → (check_eta w s).txs = [Tx.cast s.hat.address]) := by
  have hne : s.hat.eta ≠ 0 := by
    rw [heta]
    exact Nat.pos_iff_ne_zero.mp hT
  constructor
  · intro hts
    have hlt : b.timestamp < s.hat.eta := by
      rw [hts, heta]
      exact Nat.sub_lt hT Nat.one_pos
    simp [check_eta, haddr, hdone, hne, hblock, hlt]
  · intro hts
    have hnl : ¬ (b.timestamp < s.hat.eta) := by
      rw [hts, heta]
      exact lt_irrefl T
    cases hr : w.castReceipt s.hat.address with
    | none => simp [check_eta, haddr, hdone, hne, hblock, hnl, hcode, hr]
    | some r =>
      by_cases hs : r.successful <;>
        simp [check_eta, haddr, hdone, hne, hblock, hnl, hcode, hr, hs]

/-- Witness for C8 on the concrete scenario with eta 10 and block
timestamp 10: exactly one cast transaction is submitted. -/
theorem c8_due_time_uses_block_timestamp_witness :
    (check_eta w8c s8c).txs = [Tx.cast 4] :=
  (c8_due_time_uses_block_timestamp w8c s8c 10 { timestamp := 10 } (by decide)
    (by decide) (by decide) (by decide) (by decide) (by decide)).2 (by decide)

/-- Claim C9, evaluated at the failing input: with a fresh error counter
and a scenario making check_eta raise, process_block lets the exception
escape the callback and leaves the errors field at 0 — nothing in the
code catches monitor exceptions or increments the counter. -/
theorem c9_exception_escapes_uncounted :
    process_block w9c k9c =
      BlockOutcome.processed
        { errors := 0
          max_errors := 100
          db := { last_block_checked := 12
                  hat := { address := 7, eta := 5, done := false } } }
        [] (some PyErr.attributeError) := by
  decide

/-- Companion fact for C9: the part of the claim the code does satisfy —
once the counter has reached the configured maximum, the callback
terminates the lifecycle and neither monitor runs. -/
theorem c9_budget_reached_terminates (w : ChainView) (k : KeeperState)
    (h : k.max_errors ≤ k.errors) :
    process_block w k = BlockOutcome.terminated := by
  simp [process_block, h]

/-- Witness for the companion C9 fact at an exhausted budget. -/
theorem c9_budget_reached_terminates_witness :
    process_block w9c { errors := 100, max_errors := 100, db := k9c.db } =
      BlockOutcome.terminated :=
  c9_budget_reached_terminates w9c
    { errors := 100, max_errors := 100, db := k9c.db } (by decide)

/-- Claim C10: when the guards pass but fetching the current block
returns None, check_eta returns with no transaction, no raised error and
the cached state unchanged. -/
theorem c10_none_block_no_action (w : ChainView) (s : DBState)
    (haddr : s.hat.address ≠ zero_address)
    (hdone : s.hat.done = false)
    (heta : s.hat.eta ≠ 0)
    (hblock : w.getBlock w.blockNumber = none) :
    check_eta w s = { state := s, txs := [], err := none } := by
  simp [check_eta, haddr, hdone, heta, hblock]

/-- Witness for C10 on the concrete None-block scenario. -/
theorem c10_none_block_no_action_witness :
    check_eta w10c s10c = { state := s10c, txs := [], err := none } :=
  c10_none_block_no_action w10c s10c (by decide) (by decide) (by decide) rfl

end ChiefKeeper
